import Mathlib

/-!
Shallow embedding of the bulk-transfer streaming engine of libTIMS-SDR
(src/src/timssdr.c, src/include/timssdr.h).

Host pointer values (callback function pointers, context pointers) are
modelled as natural numbers; NULL-able pointers as `Option`.  External
transport calls (libusb submit results, libusb_strerror) are passed in as
oracle parameters.  Machine integers: the `open_devices` counter is a C
`uint16_t`, modelled as `Nat` reduced mod 2^16 at each step;
`active_transfers` and error codes are C `int`, modelled as `Int`.
-/

set_option maxHeartbeats 1000000

/-- Error codes of `enum timssdr_error` (timssdr.h), in declaration order from 0. -/
def TIMSSDR_SUCCESS : Int := 0

def TIMSSDR_TRUE : Int := 1

def TIMSSDR_ERROR_INVALID_PARAM : Int := 2

def TIMSSDR_ERROR_NOT_FOUND : Int := 3

def TIMSSDR_ERROR_LIBUSB : Int := 4

def TIMSSDR_ERROR_NOT_LAST_DEVICE : Int := 5

def TIMSSDR_ERROR_NO_MEM : Int := 6

def TIMSSDR_ERROR_THREAD : Int := 7

def TIMSSDR_ERROR_BUSY : Int := 8

def TIMSSDR_ERROR_OTHER : Int := 9

def TIMSSDR_ERROR_STREAMING_THREAD_ERR : Int := 10

def TIMSSDR_ERROR_STREAMING_STOPPED : Int := 11

def TIMSSDR_ERROR_STREAMING_EXIT_CALLED : Int := 12

/-- Constants from timssdr.c. -/
def TRANSFER_COUNT : Nat := 4

def TRANSFER_BUFFER_SIZE : Nat := 262144

def DEVICE_BUFFER_SIZE : Nat := 32768

/-- RX_ENDPOINT_ADDRESS = LIBUSB_ENDPOINT_IN | 1 = 0x81. -/
def RX_ENDPOINT_ADDRESS : Nat := 0x81

/-- TX_ENDPOINT_ADDRESS = LIBUSB_ENDPOINT_OUT | 2 = 0x02. -/
def TX_ENDPOINT_ADDRESS : Nat := 0x02

def LIBUSB_TRANSFER_COMPLETED : Int := 0

def LIBUSB_SUCCESS : Int := 0

/-- The flush transfer allocated by `timssdr_enable_tx_flush`: endpoint,
zero-filled buffer (from `calloc`) and length. -/
structure FlushTransfer where
  endpoint : Nat
  buffer : Nat → Nat
  length : Nat

/-- The fields of `struct timssdr_device` that the streaming engine reads
and writes. Callback pointers are abstract `Nat` identities (`Option` for
NULL-able ones). -/
@[ext]
structure DeviceState where
  streaming : Bool
  flush : Bool
  transfers_setup : Bool
  transfers_allocated : Bool
  active_transfers : Int
  transfer_thread_started : Bool
  do_exit : Bool
  callback : Option Nat
  rx_ctx : Nat
  tx_ctx : Nat
  flush_transfer : Option FlushTransfer
  flush_callback : Option Nat
  flush_ctx : Nat
  tx_completion_callback : Option Nat

/-- The `while (length % 512 != 0) buffer[length++] = 0;` padding loop used
in `prepare_transfers` and in `timssdr_libusb_transfer_callback`. -/
def padLoop (buffer : Nat → Nat) (length : Nat) : (Nat → Nat) × Nat :=
  if length % 512 = 0 then (buffer, length)
  else padLoop (Function.update buffer length 0) (length + 1)
termination_by (512 - length % 512) % 512
decreasing_by omega

/-- Outcome of one invocation of the application sample-block callback:
its return value, and the `valid_length` and buffer contents it left in the
transfer descriptor. -/
structure CbOutcome where
  ret : Int
  valid_length : Int
  buffer : Nat → Nat

/-- Observable effects of one run of `timssdr_libusb_transfer_callback`. -/
structure HandlerOut where
  tx_completion_invoked : Bool
  sample_callback_invoked : Bool
  submitted : Option (Nat × (Nat → Nat))
  flush_submitted : Bool
  broadcast : Bool

/-- Lines 340-354 of timssdr.c: the `if (!resubmit || result != LIBUSB_SUCCESS)`
block at the end of the completion handler (clear streaming, then either
zero `active_transfers` and broadcast, or decrement it).  Returns the new
state and whether the all-finished condition was broadcast. -/
def handlerFinalize (s : DeviceState) (resubmit : Bool) (submitOk : Bool) :
    DeviceState × Bool :=
  if resubmit = false ∨ submitOk = false then
    if s.active_transfers = 1 then
      if s.flush = false then
        ({s with streaming := false, active_transfers := 0}, true)
      else ({s with streaming := false}, false)
    else ({s with streaming := false, active_transfers := s.active_transfers - 1}, false)
  else (s, false)

/-- timssdr_libusb_transfer_callback (timssdr.c lines 290-359).  `status` is
the libusb transfer status, `cb` the oracle for the sample-block callback's
behaviour, `submitOk`/`flushSubmitOk` the oracles for the two possible
libusb_submit_transfer calls. -/
def timssdr_libusb_transfer_callback (s : DeviceState) (endpoint : Nat) (status : Int)
    (cb : CbOutcome) (submitOk : Bool) (flushSubmitOk : Bool) : DeviceState × HandlerOut :=
  if status = LIBUSB_TRANSFER_COMPLETED then
    if s.streaming = true ∧ cb.ret = 0 ∧ cb.valid_length > 0 then
      if s.transfers_setup = true then
        ((handlerFinalize s true submitOk).1,
          { tx_completion_invoked := s.tx_completion_callback.isSome,
            sample_callback_invoked := true,
            submitted := some (if endpoint = TX_ENDPOINT_ADDRESS then
                ((padLoop cb.buffer cb.valid_length.toNat).2,
                 (padLoop cb.buffer cb.valid_length.toNat).1)
              else (TRANSFER_BUFFER_SIZE, cb.buffer)),
            flush_submitted := false,
            broadcast := (handlerFinalize s true submitOk).2 })
      else
        ((handlerFinalize s false submitOk).1,
          { tx_completion_invoked := s.tx_completion_callback.isSome,
            sample_callback_invoked := true,
            submitted := none,
            flush_submitted := false,
            broadcast := (handlerFinalize s false submitOk).2 })
    else
      if s.flush = true then
        ((handlerFinalize
            (if flushSubmitOk then s else {s with streaming := false, flush := false})
            false submitOk).1,
          { tx_completion_invoked := s.tx_completion_callback.isSome,
            sample_callback_invoked := s.streaming,
            submitted := none,
            flush_submitted := true,
            broadcast := (handlerFinalize
              (if flushSubmitOk then s else {s with streaming := false, flush := false})
              false submitOk).2 })
      else
        ((handlerFinalize s false submitOk).1,
          { tx_completion_invoked := s.tx_completion_callback.isSome,
            sample_callback_invoked := s.streaming,
            submitted := none,
            flush_submitted := false,
            broadcast := (handlerFinalize s false submitOk).2 })
  else
    ((handlerFinalize {s with streaming := false, flush := false} false submitOk).1,
      { tx_completion_invoked := s.tx_completion_callback.isSome,
        sample_callback_invoked := false,
        submitted := none,
        flush_submitted := false,
        broadcast := (handlerFinalize {s with streaming := false, flush := false} false submitOk).2 })

/-- Ordered actions performed by the flush completion handler, used to state
lock-ordering facts. -/
inductive FlushAct
  | lock
  | set_flush (b : Bool)
  | set_active (n : Int)
  | broadcast
  | unlock
  | invoke_flush_cb (ctx : Nat) (ok : Bool)
deriving DecidableEq

/-- timssdr_libusb_flush_callback (timssdr.c lines 274-288): under the
transfer lock clear `flush`, zero `active_transfers`, broadcast
all_finished_cv; after unlocking invoke the flush callback (if installed)
with `(flush_ctx, success)`. -/
def timssdr_libusb_flush_callback (s : DeviceState) (status : Int) :
    DeviceState × List FlushAct :=
  ({s with flush := false, active_transfers := 0},
    [FlushAct.lock, FlushAct.set_flush false, FlushAct.set_active 0,
     FlushAct.broadcast, FlushAct.unlock] ++
    (if s.flush_callback.isSome then
      [FlushAct.invoke_flush_cb s.flush_ctx (decide (status = LIBUSB_TRANSFER_COMPLETED))]
    else []))

/-- The TX fill loop of `prepare_transfers` (lines 422-441): number of leading
slots whose fill callback returned 0 with `valid_length > 0`; stops at the
first refusal. `i` is the slot index, the second argument the remaining
slot count. -/
def txReadyFrom (cbs : Nat → CbOutcome) : Nat → Nat → Nat
  | _, 0 => 0
  | i, n + 1 =>
    if (cbs i).ret = 0 ∧ (cbs i).valid_length > 0 then txReadyFrom cbs (i + 1) n + 1
    else 0

/-- Observable outputs of `prepare_transfers`: the (length, buffer) of each
bulk transfer handed to libusb_submit_transfer, in order; whether the flush
transfer was submitted; and the returned error code. -/
structure PrepareOut where
  submissions : List (Nat × (Nat → Nat))
  flush_submitted : Bool
  result : Int

/-- Contents of slot `i` at submit time in `prepare_transfers`: for TX the
callback-filled buffer padded to the next 512-byte boundary (lines 458-462),
for RX the zero-initialised slot buffer of full size. -/
def slotFill (endpoint : Nat) (cbs : Nat → CbOutcome) (i : Nat) : Nat × (Nat → Nat) :=
  if endpoint = TX_ENDPOINT_ADDRESS then
    ((padLoop (cbs i).buffer ((cbs i).valid_length).toNat).2,
     (padLoop (cbs i).buffer ((cbs i).valid_length).toNat).1)
  else (TRANSFER_BUFFER_SIZE, fun _ => 0)

/-- The submit loop of `prepare_transfers` (lines 453-470): submit slots
`i, i+1, ...` (second argument counts remaining), breaking at the first
submit error.  Returns the submissions attempted, the final value of the C
variable `error` (its third argument is the value `error` holds when the
loop body never runs, i.e. its indeterminate initial value), and the number
of successful submits (= increments of `active_transfers`). -/
def submitLoop (endpoint : Nat) (cbs : Nat → CbOutcome) (submitRes : Nat → Int) :
    Nat → Nat → Int → List (Nat × (Nat → Nat)) × Int × Nat
  | _, 0, err => ([], err, 0)
  | i, n + 1, _ =>
    if submitRes i = 0 then
      ((slotFill endpoint cbs i) :: (submitLoop endpoint cbs submitRes (i + 1) n (submitRes i)).1,
        (submitLoop endpoint cbs submitRes (i + 1) n (submitRes i)).2.1,
        (submitLoop endpoint cbs submitRes (i + 1) n (submitRes i)).2.2 + 1)
    else ([slotFill endpoint cbs i], submitRes i, 0)

/-- prepare_transfers (timssdr.c lines 399-496).  `cbs i` is the oracle for
the i-th TX fill-callback invocation, `submitRes i` the libusb result of
submitting slot `i`, `flushSubmitRes` the result of submitting the flush
transfer, and `errorInit` the indeterminate initial value of the
uninitialised local variable `error` (read by `if (error == 0)` when
`ready_transfers == 0`). -/
def prepare_transfers (s : DeviceState) (endpoint : Nat) (cbs : Nat → CbOutcome)
    (submitRes : Nat → Int) (flushSubmitRes : Int) (errorInit : Int) :
    DeviceState × PrepareOut :=
  if s.transfers_allocated = false then
    (s, ⟨[], false, TIMSSDR_ERROR_OTHER⟩)
  else
    ((fun loopOut =>
      (fun s1 =>
        if loopOut.2.1 = 0 then
          (fun s2 =>
            if s2.streaming = false ∧ s2.flush = true then
              (s2, ⟨loopOut.1, true,
                if flushSubmitRes = 0 then TIMSSDR_SUCCESS else TIMSSDR_ERROR_LIBUSB⟩)
            else (s2, ⟨loopOut.1, false, TIMSSDR_SUCCESS⟩))
            {s1 with
              streaming := decide ((if endpoint = TX_ENDPOINT_ADDRESS then
                txReadyFrom cbs 0 TRANSFER_COUNT else TRANSFER_COUNT) = TRANSFER_COUNT),
              transfers_setup := true}
        else (s1, ⟨loopOut.1, false, TIMSSDR_ERROR_LIBUSB⟩))
        {s with active_transfers := s.active_transfers + loopOut.2.2})
      (submitLoop endpoint cbs submitRes 0
        (if endpoint = TX_ENDPOINT_ADDRESS then txReadyFrom cbs 0 TRANSFER_COUNT
         else TRANSFER_COUNT) errorInit))

/-- prepare_setup_transfers (lines 498-509): BUSY if transfers_setup, else
install the sample-block callback and call prepare_transfers. -/
def prepare_setup_transfers (s : DeviceState) (endpoint : Nat) (callback : Nat)
    (cbs : Nat → CbOutcome) (submitRes : Nat → Int) (flushSubmitRes errorInit : Int) :
    DeviceState × PrepareOut :=
  if s.transfers_setup = true then (s, ⟨[], false, TIMSSDR_ERROR_BUSY⟩)
  else prepare_transfers {s with callback := some callback} endpoint cbs submitRes
    flushSubmitRes errorInit

/-- timssdr_start_rx (lines 902-909): stores rx_ctx, then prepare_setup_transfers
on the RX endpoint. -/
def timssdr_start_rx (s : DeviceState) (callback : Nat) (rx_ctx : Nat)
    (cbs : Nat → CbOutcome) (submitRes : Nat → Int) (flushSubmitRes errorInit : Int) :
    DeviceState × PrepareOut :=
  prepare_setup_transfers {s with rx_ctx := rx_ctx} RX_ENDPOINT_ADDRESS callback cbs
    submitRes flushSubmitRes errorInit

/-- timssdr_start_tx (lines 924-934): sets `flush` if a flush transfer is
allocated, stores tx_ctx, then prepare_setup_transfers on the TX endpoint. -/
def timssdr_start_tx (s : DeviceState) (callback : Nat) (tx_ctx : Nat)
    (cbs : Nat → CbOutcome) (submitRes : Nat → Int) (flushSubmitRes errorInit : Int) :
    DeviceState × PrepareOut :=
  prepare_setup_transfers
    {(if s.flush_transfer.isSome then {s with flush := true} else s) with tx_ctx := tx_ctx}
    TX_ENDPOINT_ADDRESS callback cbs submitRes flushSubmitRes errorInit

/-- The `while (active_transfers > 0) pthread_cond_wait(...)` drain loop of
cancel_transfers.  Each wait returns with the next value of
`active_transfers` written by the completion handlers (the `updates` list);
`none` models a call that blocks forever because no further update comes. -/
def waitAllFinished : List Int → Int → Option Int
  | [], a => if a > 0 then none else some a
  | u :: rest, a => if a > 0 then waitAllFinished rest u else some a

/-- cancel_transfers (timssdr.c lines 211-250): clear streaming; if the
transfers are allocated and set up, clear transfers_setup and flush, drain,
and return SUCCESS, else return TIMSSDR_ERROR_OTHER.  `none` models a call
that never returns from the drain wait. -/
def cancel_transfers (s : DeviceState) (updates : List Int) :
    Option (DeviceState × Int) :=
  if s.transfers_allocated = true ∧ s.transfers_setup = true then
    match waitAllFinished updates s.active_transfers with
    | none => none
    | some a =>
      some ({s with
              streaming := false
              transfers_setup := false
              flush := false
              active_transfers := a}, TIMSSDR_SUCCESS)
  else some ({s with streaming := false}, TIMSSDR_ERROR_OTHER)

/-- timssdr_stop_rx (lines 911-922) delegates to cancel_transfers. -/
def timssdr_stop_rx (s : DeviceState) (updates : List Int) : Option (DeviceState × Int) :=
  cancel_transfers s updates

/-- timssdr_stop_tx (lines 980-990) delegates to cancel_transfers. -/
def timssdr_stop_tx (s : DeviceState) (updates : List Int) : Option (DeviceState × Int) :=
  cancel_transfers s updates

/-- timssdr_is_streaming (timssdr.c lines 882-900). -/
def timssdr_is_streaming (s : DeviceState) : Int :=
  if s.transfer_thread_started = true ∧ s.streaming = true ∧ s.do_exit = false then
    TIMSSDR_TRUE
  else if s.transfer_thread_started = false then TIMSSDR_ERROR_STREAMING_THREAD_ERR
  else if s.streaming = false then TIMSSDR_ERROR_STREAMING_STOPPED
  else TIMSSDR_ERROR_STREAMING_EXIT_CALLED

/-- timssdr_enable_tx_flush (timssdr.c lines 942-968): install callback and
context; if no flush transfer exists yet, allocate one zero-filled
DEVICE_BUFFER_SIZE transfer bound to the TX endpoint.  The allocations
(libusb_alloc_transfer + calloc, modelled as succeeding) performed by this
call are counted in the third component. -/
def timssdr_enable_tx_flush (s : DeviceState) (callback : Nat) (flush_ctx : Nat) :
    DeviceState × Int × Nat :=
  match s.flush_transfer with
  | some _ =>
    ({s with flush_callback := some callback, flush_ctx := flush_ctx}, TIMSSDR_SUCCESS, 0)
  | none =>
    ({s with
       flush_callback := some callback
       flush_ctx := flush_ctx
       flush_transfer := some ⟨TX_ENDPOINT_ADDRESS, fun _ => 0, DEVICE_BUFFER_SIZE⟩},
      TIMSSDR_SUCCESS, 1)

/-- A sequence of timssdr_enable_tx_flush calls; returns the final state, the
list of results, and the total number of flush-transfer allocations. -/
def enableFlushRun (s : DeviceState) : List (Nat × Nat) → DeviceState × List Int × Nat
  | [] => (s, [], 0)
  | c :: rest =>
    ((enableFlushRun (timssdr_enable_tx_flush s c.1 c.2).1 rest).1,
      (timssdr_enable_tx_flush s c.1 c.2).2.1 ::
        (enableFlushRun (timssdr_enable_tx_flush s c.1 c.2).1 rest).2.1,
      (timssdr_enable_tx_flush s c.1 c.2).2.2 +
        (enableFlushRun (timssdr_enable_tx_flush s c.1 c.2).1 rest).2.2)

/-- timssdr_error_name (timssdr.c lines 992-1041).  `strerror` models the
external libusb_strerror; `none` would model returning NULL (never happens).
The LIBUSB_API_VERSION >= 0x01000103 branch is taken (modern libusb). -/
def timssdr_error_name (strerror : Int → String) (last_libusb_error : Int)
    (errcode : Int) : Option String :=
  match errcode with
  | 0 => some ("TIMSSDR_SUCCESS")                             -- TIMSSDR_SUCCESS
  | 1 => some ("TIMSSDR_TRUE")                                -- TIMSSDR_TRUE
  | 2 => some ("invalid parameter(s)")                        -- INVALID_PARAM
  | 3 => some ("TimsSDR not found")                           -- NOT_FOUND
  | 8 => some ("TimsSDR busy")                                -- BUSY
  | 6 => some ("insufficient memory")                         -- NO_MEM
  | 4 =>                                                      -- LIBUSB
    if last_libusb_error ≠ LIBUSB_SUCCESS then some (strerror last_libusb_error)
    else some ("USB error")
  | 7 => some ("transfer thread error")                       -- THREAD
  | 10 => some ("streaming thread encountered an error")      -- STREAMING_THREAD_ERR
  | 11 => some ("streaming stopped")                          -- STREAMING_STOPPED
  | 12 => some ("streaming terminated")                       -- STREAMING_EXIT_CALLED
  | 5 => some ("one or more TimsSDRs still in use")           -- NOT_LAST_DEVICE
  | 9 => some ("unspecified error")                           -- OTHER
  | _ => some ("unknown error code")                          -- default

/-- `open_devices` is a C `uint16_t`. -/
def UINT16_MOD : Nat := 65536

/-- timssdr_close (timssdr.c lines 848-880), restricted to its effect on the
global `open_devices` counter and its result.  The decrement at line 874 is
unconditional — it runs even for a NULL `device`.  `joinOk` is the oracle for
pthread_join inside kill_transfer_thread. -/
def timssdr_close (open_devices : Nat) (device_is_null : Bool) (joinOk : Bool) :
    Nat × Int :=
  ((open_devices + (UINT16_MOD - 1)) % UINT16_MOD,
    if device_is_null then TIMSSDR_SUCCESS
    else if joinOk then TIMSSDR_SUCCESS
    else TIMSSDR_ERROR_THREAD)

/-- One event of an open/close interleaving: a successful timssdr_open* call
(which runs `open_devices++` at line 781) or a timssdr_close call (whose
argument may be NULL). -/
inductive LifeEv
  | openOk
  | closeCall (device_is_null : Bool)

def open_devices_step (c : Nat) : LifeEv → Nat
  | .openOk => (c + 1) % UINT16_MOD
  | .closeCall b => (timssdr_close c b true).1

/-- The value of `open_devices` after an interleaving of successful opens and
close calls, starting from the initial 0. -/
def run_open_devices (evs : List LifeEv) : Nat := evs.foldl open_devices_step 0

def countOpens : List LifeEv → Nat
  | [] => 0
  | .openOk :: t => countOpens t + 1
  | .closeCall _ :: t => countOpens t

def countCloses : List LifeEv → Nat
  | [] => 0
  | .openOk :: t => countCloses t
  | .closeCall _ :: t => countCloses t + 1

/-- timssdr_exit (timssdr.c lines 527-539), restricted to its result. -/
def timssdr_exit (open_devices : Nat) : Int :=
  if open_devices = 0 then TIMSSDR_SUCCESS else TIMSSDR_ERROR_NOT_LAST_DEVICE

/-- Shared concrete device fixture for witnesses and counterexamples. -/
def devBase : DeviceState :=
  { streaming := false, flush := false, transfers_setup := false,
    transfers_allocated := true, active_transfers := 0,
    transfer_thread_started := false, do_exit := false, callback := none,
    rx_ctx := 0, tx_ctx := 0, flush_transfer := none, flush_callback := none,
    flush_ctx := 0, tx_completion_callback := none }

/-- Shared concrete callback-outcome fixture: returns 0, sets valid_length
to 100, writes 7 everywhere. -/
def cbBase : CbOutcome := ⟨0, 100, fun _ => 7⟩

/-- Callback outcome that refuses the buffer (returns nonzero). -/
def cbRefuse : CbOutcome := ⟨1, 0, fun _ => 0⟩

/-- The padding loop returns a multiple of 512 in `[length, length + 512)`. -/
theorem padLoop_char (buffer : Nat → Nat) (length : Nat) :
    (padLoop buffer length).2 % 512 = 0 ∧ length ≤ (padLoop buffer length).2 ∧
      (padLoop buffer length).2 < length + 512 := by
  induction buffer, length using padLoop.induct with
  | case1 buffer length h => rw [padLoop]; simp [h]
  | case2 buffer length h ih =>
    rw [padLoop]; simp [h]
    refine ⟨ih.1, ?_, ?_⟩ <;> omega

/-- The padding loop does not touch bytes below the initial length. -/
theorem padLoop_preserve (buffer : Nat → Nat) (length : Nat) :
    ∀ i, i < length → (padLoop buffer length).1 i = buffer i := by
  induction buffer, length using padLoop.induct with
  | case1 buffer length h => intro i hi; rw [padLoop]; simp [h]
  | case2 buffer length h ih =>
    intro i hi
    rw [padLoop]; simp [h]
    rw [ih i (by omega)]
    exact Function.update_noteq (by omega) _ _

/-- Every byte the padding loop appends is zero. -/
theorem padLoop_zeros (buffer : Nat → Nat) (length : Nat) :
    ∀ i, length ≤ i → i < (padLoop buffer length).2 → (padLoop buffer length).1 i = 0 := by
  induction buffer, length using padLoop.induct with
  | case1 buffer length h =>
    intro i hi hlt
    rw [padLoop] at hlt ⊢; simp [h] at hlt ⊢; omega
  | case2 buffer length h ih =>
    intro i hi hlt
    rw [padLoop] at hlt ⊢; simp [h] at hlt ⊢
    rcases Nat.eq_or_lt_of_le hi with heq | hgt
    · subst heq
      rw [padLoop_preserve _ _ _ (by omega)]
      simp [Function.update]
    · exact ih i (by omega) hlt

/-- The padded length is the initial length rounded up to a multiple of 512. -/
theorem padLoop_len (buffer : Nat → Nat) (v : Nat) :
    (padLoop buffer v).2 = 512 * ((v + 511) / 512) := by
  have h := padLoop_char buffer v
  omega

/-- Helper: the open-device counter after an interleaving started at any
in-range value equals opens minus closes mod 2^16. -/
theorem run_open_devices_aux (evs : List LifeEv) :
    ∀ c : Nat, c < UINT16_MOD →
      ((evs.foldl open_devices_step c : Nat) : Int) =
        ((c : Int) + countOpens evs - countCloses evs) % 65536 := by
  induction evs with
  | nil =>
    intro c hc
    simp [countOpens, countCloses]
    rw [Int.emod_eq_of_lt (by omega) (by exact_mod_cast (by simpa [UINT16_MOD] using hc))]
  | cons e t ih =>
    intro c hc
    cases e with
    | openOk =>
      have hlt : (c + 1) % UINT16_MOD < UINT16_MOD := Nat.mod_lt _ (by simp [UINT16_MOD])
      have := ih ((c + 1) % UINT16_MOD) hlt
      simp only [List.foldl_cons, open_devices_step, countOpens, countCloses] at *
      rw [this]
      push_cast [UINT16_MOD]
      omega
    | closeCall b =>
      have hlt : (c + (UINT16_MOD - 1)) % UINT16_MOD < UINT16_MOD :=
        Nat.mod_lt _ (by simp [UINT16_MOD])
      have := ih ((c + (UINT16_MOD - 1)) % UINT16_MOD) hlt
      simp only [List.foldl_cons, open_devices_step, timssdr_close, countOpens,
        countCloses] at *
      rw [this]
      push_cast [UINT16_MOD]
      omega

/-- C1 counterexample: `timssdr_close` called with a NULL device is a
successful close (returns TIMSSDR_SUCCESS) yet it DOES change the global
`open_devices` counter — with one device open the counter drops from 1 to 0.
This refutes the claim's final clause ("timssdr_close called with a NULL
device must not change the counter"): the decrement at timssdr.c:874 is
outside the `if (device != NULL)` block. -/
theorem timssdr_close_null_decrements :
    (timssdr_close 1 true true).2 = TIMSSDR_SUCCESS ∧ (timssdr_close 1 true true).1 ≠ 1 := by
  constructor <;> decide

/-- C1 (amended): for every interleaving of successful opens and close
calls (every close — including one with a NULL device — counts and
decrements), the `open_devices` counter equals the number of successful
opens minus the number of close calls reduced mod 2^16 (`open_devices` is a
uint16_t, so a close below zero wraps), and `timssdr_exit` returns
TIMSSDR_SUCCESS iff that value is zero (otherwise
TIMSSDR_ERROR_NOT_LAST_DEVICE). -/
theorem open_devices_resource_law (evs : List LifeEv) :
    (run_open_devices evs : Int) =
      ((countOpens evs : Int) - countCloses evs) % 65536 ∧
    (timssdr_exit (run_open_devices evs) = TIMSSDR_SUCCESS ↔
      ((countOpens evs : Int) - countCloses evs) % 65536 = 0) := by
  have h1 := run_open_devices_aux evs 0 (by simp [UINT16_MOD])
  simp only [Int.zero_add] at h1
  constructor
  · simpa [run_open_devices] using h1
  · rw [show ((countOpens evs : Int) - countCloses evs) % 65536 =
        (run_open_devices evs : Int) by simpa [run_open_devices] using h1.symm]
    unfold timssdr_exit
    split_ifs with h
    · simp [h, TIMSSDR_SUCCESS]
    · simp [TIMSSDR_SUCCESS, TIMSSDR_ERROR_NOT_LAST_DEVICE, h]

/-- C8: timssdr_is_streaming returns TIMSSDR_TRUE iff transfer_thread_started
and streaming are true and do_exit is false, and otherwise exactly one of
the three STREAMING_* errors, checked in the priority order: thread not
started, then streaming false, then do_exit true. -/
theorem is_streaming_spec (s : DeviceState) :
    (timssdr_is_streaming s = TIMSSDR_TRUE ↔
      s.transfer_thread_started = true ∧ s.streaming = true ∧ s.do_exit = false) ∧
    (timssdr_is_streaming s = TIMSSDR_ERROR_STREAMING_THREAD_ERR ↔
      s.transfer_thread_started = false) ∧
    (timssdr_is_streaming s = TIMSSDR_ERROR_STREAMING_STOPPED ↔
      s.transfer_thread_started = true ∧ s.streaming = false) ∧
    (timssdr_is_streaming s = TIMSSDR_ERROR_STREAMING_EXIT_CALLED ↔
      s.transfer_thread_started = true ∧ s.streaming = true ∧ s.do_exit = true) := by
  obtain ⟨str, fl, ts, ta, act, tts, de, cbk, rxc, txc, ft, fcb, fctx, txcc⟩ := s
  cases str <;> cases tts <;> cases de <;>
    simp [timssdr_is_streaming, TIMSSDR_TRUE, TIMSSDR_ERROR_STREAMING_THREAD_ERR,
      TIMSSDR_ERROR_STREAMING_STOPPED, TIMSSDR_ERROR_STREAMING_EXIT_CALLED]

/-- C10: timssdr_error_name is total (never NULL); any code outside the
enumeration 0..12 yields the string for an unknown error code; and for
TIMSSDR_ERROR_LIBUSB the result is determined by the global
last_libusb_error alone (libusb_strerror of it when nonzero, a fixed string
otherwise). -/
theorem timssdr_error_name_total (strerror : Int → String) (lle errcode : Int) :
    (timssdr_error_name strerror lle errcode).isSome = true ∧
    ((errcode < 0 ∨ 12 < errcode) →
      timssdr_error_name strerror lle errcode = some ("unknown error code")) ∧
    (timssdr_error_name strerror lle TIMSSDR_ERROR_LIBUSB =
      some (if lle = LIBUSB_SUCCESS then ("USB error") else strerror lle)) := by
  refine ⟨?_, ?_, ?_⟩
  · unfold timssdr_error_name
    split
    case _ => rfl
    all_goals first | rfl | (split <;> rfl)
  · intro h
    unfold timssdr_error_name
    split <;> first | rfl | omega
  · have hred : timssdr_error_name strerror lle TIMSSDR_ERROR_LIBUSB =
        (if lle ≠ LIBUSB_SUCCESS then some (strerror lle) else some ("USB error")) := rfl
    rw [hred]
    by_cases h : lle = LIBUSB_SUCCESS
    · simp [h]
    · simp [h]

/-- C10 witness: the out-of-range code 99 yields the unknown-code string and
a non-NULL result, by the theorem applied at strerror = const, lle = 5. -/
theorem timssdr_error_name_total_witness :
    timssdr_error_name (fun _ => ("E" : String)) 5 99 = some ("unknown error code") ∧
    (timssdr_error_name (fun _ => ("E" : String)) 5 99).isSome = true :=
  ⟨(timssdr_error_name_total (fun _ => ("E" : String)) 5 99).2.1 (by decide),
   (timssdr_error_name_total (fun _ => ("E" : String)) 5 99).1⟩

/-- C7: the flush completion handler clears `flush`, zeroes
`active_transfers` and broadcasts the all-finished condition between
acquiring and releasing the transfer lock, and invokes the application
flush callback with `(flush_ctx, success)` only after the unlock, where
success holds iff the transfer status is COMPLETED. -/
theorem flush_callback_spec (s : DeviceState) (status : Int)
    (hcb : s.flush_callback.isSome = true) :
    (timssdr_libusb_flush_callback s status).1 =
      {s with flush := false, active_transfers := 0} ∧
    (timssdr_libusb_flush_callback s status).2 =
      [FlushAct.lock, FlushAct.set_flush false, FlushAct.set_active 0,
       FlushAct.broadcast, FlushAct.unlock,
       FlushAct.invoke_flush_cb s.flush_ctx (decide (status = LIBUSB_TRANSFER_COMPLETED))] ∧
    ((decide (status = LIBUSB_TRANSFER_COMPLETED)) = true ↔
      status = LIBUSB_TRANSFER_COMPLETED) := by
  refine ⟨rfl, ?_, by simp⟩
  simp [timssdr_libusb_flush_callback, hcb]

/-- Concrete device with an installed flush callback, for the C7 witness. -/
def devFlushCb : DeviceState :=
  {devBase with flush := true, active_transfers := 3, flush_callback := some 3, flush_ctx := 4}

/-- C7 witness: concrete run at a COMPLETED status. -/
theorem flush_callback_spec_witness :
    (timssdr_libusb_flush_callback devFlushCb 0).1 =
      {devFlushCb with flush := false, active_transfers := 0} :=
  (flush_callback_spec devFlushCb 0 rfl).1

/-- The last element of `c :: l` (the arguments of the most recent call in
a nonempty call sequence). -/
def lastCall (c : Nat × Nat) : List (Nat × Nat) → Nat × Nat
  | [] => c
  | d :: t => lastCall d t

/-- Helper for C9: once the flush transfer exists, every further
enable_tx_flush call allocates nothing, returns TIMSSDR_SUCCESS, and only
rewrites flush_callback/flush_ctx with the latest supplied values. -/
theorem enableFlushRun_some (ft : FlushTransfer) :
    ∀ (l : List (Nat × Nat)) (s : DeviceState), s.flush_transfer = some ft →
      (enableFlushRun s l).2.2 = 0 ∧
      (∀ r ∈ (enableFlushRun s l).2.1, r = TIMSSDR_SUCCESS) ∧
      (enableFlushRun s l).1 =
        (match l with
         | [] => s
         | c :: t =>
           {s with flush_callback := some (lastCall c t).1, flush_ctx := (lastCall c t).2}) := by
  intro l
  induction l with
  | nil => intro s h; simp [enableFlushRun]
  | cons c t ih =>
    intro s h
    have hstep : timssdr_enable_tx_flush s c.1 c.2 =
        ({s with flush_callback := some c.1, flush_ctx := c.2}, TIMSSDR_SUCCESS, 0) := by
      simp [timssdr_enable_tx_flush, h]
    obtain ⟨ih1, ih2, ih3⟩ :=
      ih {s with flush_callback := some c.1, flush_ctx := c.2} (by simp [h])
    refine ⟨?_, ?_, ?_⟩
    · simp [enableFlushRun, hstep, ih1]
    · intro r hr
      simp only [enableFlushRun, hstep, List.mem_cons] at hr
      rcases hr with h1 | h2
      · simpa using h1
      · exact ih2 r h2
    · simp only [enableFlushRun, hstep]
      rw [ih3]
      cases t with
      | nil => simp [lastCall]
      | cons d t2 => simp [lastCall]

/-- C9: K >= 1 calls to timssdr_enable_tx_flush on an open device (no flush
transfer yet) allocate exactly one flush transfer — a zero-filled
DEVICE_BUFFER_SIZE (32768) byte transfer bound to the TX endpoint — every
call returns TIMSSDR_SUCCESS, the most recently supplied callback/context
are installed, and the state after the K-th call equals the state after the
first call with the latest callback/context substituted. -/
theorem enable_tx_flush_idempotent (s : DeviceState) (c0 : Nat × Nat)
    (rest : List (Nat × Nat)) (hft : s.flush_transfer = none) :
    (enableFlushRun s (c0 :: rest)).2.2 = 1 ∧
    (∀ r ∈ (enableFlushRun s (c0 :: rest)).2.1, r = TIMSSDR_SUCCESS) ∧
    (enableFlushRun s (c0 :: rest)).1.flush_transfer =
      some ⟨TX_ENDPOINT_ADDRESS, fun _ => 0, DEVICE_BUFFER_SIZE⟩ ∧
    (enableFlushRun s (c0 :: rest)).1 =
      {(timssdr_enable_tx_flush s c0.1 c0.2).1 with
        flush_callback := some (lastCall c0 rest).1
        flush_ctx := (lastCall c0 rest).2} := by
  have hstep : timssdr_enable_tx_flush s c0.1 c0.2 =
      ({s with
          flush_callback := some c0.1
          flush_ctx := c0.2
          flush_transfer := some ⟨TX_ENDPOINT_ADDRESS, fun _ => 0, DEVICE_BUFFER_SIZE⟩},
        TIMSSDR_SUCCESS, 1) := by
    simp [timssdr_enable_tx_flush, hft]
  obtain ⟨ih1, ih2, ih3⟩ :=
    enableFlushRun_some ⟨TX_ENDPOINT_ADDRESS, fun _ => 0, DEVICE_BUFFER_SIZE⟩ rest
      ({s with
          flush_callback := some c0.1
          flush_ctx := c0.2
          flush_transfer := some ⟨TX_ENDPOINT_ADDRESS, fun _ => 0, DEVICE_BUFFER_SIZE⟩})
      (by simp)
  refine ⟨?_, ?_, ?_, ?_⟩
  · simp [enableFlushRun, hstep, ih1]
  · intro r hr
    simp only [enableFlushRun, hstep, List.mem_cons] at hr
    rcases hr with h1 | h2
    · simpa using h1
    · exact ih2 r h2
  · simp only [enableFlushRun, hstep]
    rw [ih3]
    cases rest with
    | nil => simp
    | cons d t2 => simp
  · simp only [enableFlushRun, hstep]
    rw [ih3]
    cases rest with
    | nil => simp [lastCall]
    | cons d t2 => simp [lastCall]

/-- C9 witness: two calls on a fresh device allocate exactly once. -/
theorem enable_tx_flush_idempotent_witness :
    (enableFlushRun devBase ((1, 2) :: [(3, 4)])).2.2 = 1 :=
  (enable_tx_flush_idempotent devBase (1, 2) [(3, 4)] rfl).1

/-- Helper for C5: if the drain loop returns and every value the condition
wait observes is nonnegative (as is the initial one), the value at exit is
exactly zero. -/
theorem waitAllFinished_exit_zero (updates : List Int) :
    ∀ a v, (∀ u ∈ updates, 0 ≤ u) → 0 ≤ a → waitAllFinished updates a = some v → v = 0 := by
  induction updates with
  | nil =>
    intro a v _ ha hv
    simp only [waitAllFinished] at hv
    split at hv
    · exact absurd hv (by simp)
    · simp only [Option.some.injEq] at hv
      omega
  | cons u rest ih =>
    intro a v hmem ha hv
    simp only [waitAllFinished] at hv
    split at hv
    · exact ih u v (fun x hx => hmem x (List.mem_cons_of_mem u hx)) (hmem u (by simp)) hv
    · simp only [Option.some.injEq] at hv
      omega

/-- C5: with the transfer ring allocated (true for every open device),
timssdr_stop_rx and timssdr_stop_tx return TIMSSDR_ERROR_OTHER when
transfers_setup is false, changing nothing but clearing `streaming`; and
when transfers_setup is true, whenever they return they return
TIMSSDR_SUCCESS with active_transfers == 0, transfers_setup == false and
flush == false (given that the completion handlers only ever leave
nonnegative counts, per invariant I1). -/
theorem stop_rx_tx_spec (s : DeviceState) (updates : List Int)
    (halloc : s.transfers_allocated = true)
    (hupd : ∀ u ∈ updates, 0 ≤ u) (hact : 0 ≤ s.active_transfers) :
    (s.transfers_setup = false →
      timssdr_stop_rx s updates = some ({s with streaming := false}, TIMSSDR_ERROR_OTHER) ∧
      timssdr_stop_tx s updates = some ({s with streaming := false}, TIMSSDR_ERROR_OTHER)) ∧
    (s.transfers_setup = true →
      ∀ s' r, timssdr_stop_rx s updates = some (s', r) →
        r = TIMSSDR_SUCCESS ∧ s'.active_transfers = 0 ∧
        s'.transfers_setup = false ∧ s'.flush = false ∧ s'.streaming = false) ∧
    (s.transfers_setup = true →
      ∀ s' r, timssdr_stop_tx s updates = some (s', r) →
        r = TIMSSDR_SUCCESS ∧ s'.active_transfers = 0 ∧
        s'.transfers_setup = false ∧ s'.flush = false ∧ s'.streaming = false) := by
  have hmain : s.transfers_setup = true →
      ∀ s' r, cancel_transfers s updates = some (s', r) →
        r = TIMSSDR_SUCCESS ∧ s'.active_transfers = 0 ∧
        s'.transfers_setup = false ∧ s'.flush = false ∧ s'.streaming = false := by
    intro hsetup s' r hres
    simp only [cancel_transfers, halloc, hsetup, and_self, if_true] at hres
    rcases hw : waitAllFinished updates s.active_transfers with _ | a
    · rw [hw] at hres; exact absurd hres (by simp)
    · rw [hw] at hres
      simp only [Option.some.injEq, Prod.mk.injEq] at hres
      have hz := waitAllFinished_exit_zero updates s.active_transfers a hupd hact hw
      obtain ⟨hs', hr⟩ := hres
      subst hs'
      exact ⟨hr.symm, by simp [hz], rfl, rfl, rfl⟩
  refine ⟨?_, hmain, hmain⟩
  intro hns
  have : cancel_transfers s updates =
      some ({s with streaming := false}, TIMSSDR_ERROR_OTHER) := by
    simp [cancel_transfers, hns]
  exact ⟨this, this⟩

/-- Concrete device with a live session, for the C5 witness. -/
def devLive : DeviceState :=
  {devBase with streaming := true, transfers_setup := true, flush := true, active_transfers := 2}

/-- The state in which the C5 witness run ends. -/
def devDrained : DeviceState :=
  {devLive with
    streaming := false
    transfers_setup := false
    flush := false
    active_transfers := 0}

/-- C5 witness: stopping the concrete live session with completion updates
2 -> 1 -> 0 returns SUCCESS with the drained postcondition. -/
theorem stop_rx_tx_spec_witness :
    TIMSSDR_SUCCESS = TIMSSDR_SUCCESS ∧
    devDrained.active_transfers = 0 ∧
    devDrained.transfers_setup = false ∧
    devDrained.flush = false ∧
    devDrained.streaming = false :=
  (stop_rx_tx_spec devLive [1, 0] rfl (by decide) (by decide)).2.1 rfl
    devDrained TIMSSDR_SUCCESS rfl

/-- handlerFinalize never touches the `flush` flag. -/
theorem handlerFinalize_flush (s : DeviceState) (r b : Bool) :
    ((handlerFinalize s r b).1).flush = s.flush := by
  unfold handlerFinalize
  split_ifs <;> rfl

/-- When no resubmission happened, handlerFinalize clears `streaming`. -/
theorem handlerFinalize_streaming (s : DeviceState) (b : Bool) :
    ((handlerFinalize s false b).1).streaming = false := by
  unfold handlerFinalize
  split_ifs with h h1 h2 <;> first | rfl | simp at h

/-- C3: the completion handler invokes the application sample-block callback
iff the transfer status is COMPLETED and `streaming` is true at the locked
decision point (so never for a failed or cancelled transfer and never after
streaming was cleared; the model invokes it at most once per completion by
construction); and on a non-COMPLETED status it clears both `streaming` and
`flush`. -/
theorem sample_callback_invocation (s : DeviceState) (endpoint : Nat) (status : Int)
    (cb : CbOutcome) (submitOk flushSubmitOk : Bool) :
    ((timssdr_libusb_transfer_callback s endpoint status cb submitOk flushSubmitOk).2.sample_callback_invoked
        = true ↔ status = LIBUSB_TRANSFER_COMPLETED ∧ s.streaming = true) ∧
    (status ≠ LIBUSB_TRANSFER_COMPLETED →
      (timssdr_libusb_transfer_callback s endpoint status cb submitOk flushSubmitOk).1.streaming = false ∧
      (timssdr_libusb_transfer_callback s endpoint status cb submitOk flushSubmitOk).1.flush = false) := by
  by_cases hs : status = LIBUSB_TRANSFER_COMPLETED
  · constructor
    · by_cases hc : s.streaming = true ∧ cb.ret = 0 ∧ cb.valid_length > 0
      · by_cases ht : s.transfers_setup = true <;>
          simp [timssdr_libusb_transfer_callback, hs, hc, ht, hc.1]
      · by_cases hf : s.flush = true <;>
          simp [timssdr_libusb_transfer_callback, hs, hc, hf]
    · intro hne; exact absurd hs hne
  · constructor
    · simp [timssdr_libusb_transfer_callback, hs]
    · intro _
      constructor
      · simp only [timssdr_libusb_transfer_callback, if_neg hs]
        exact handlerFinalize_streaming _ _
      · simp only [timssdr_libusb_transfer_callback, if_neg hs]
        rw [handlerFinalize_flush]

/-- C3 witness: a cancelled transfer (nonzero status) on a streaming device
does not invoke the callback and clears streaming and flush. -/
theorem sample_callback_invocation_witness :
    ((timssdr_libusb_transfer_callback devLive RX_ENDPOINT_ADDRESS 3 cbBase true true).1.streaming
      = false) ∧
    ((timssdr_libusb_transfer_callback devLive RX_ENDPOINT_ADDRESS 3 cbBase true true).1.flush
      = false) :=
  (sample_callback_invocation devLive RX_ENDPOINT_ADDRESS 3 cbBase true true).2 (by decide)

/-- Busy device (a start session active) that also has a flush transfer
allocated, for the C6 counterexample. -/
def devBusyFt : DeviceState :=
  {devBase with
    transfers_setup := true
    streaming := true
    flush_transfer := some ⟨TX_ENDPOINT_ADDRESS, fun _ => 0, DEVICE_BUFFER_SIZE⟩}

/-- C6 counterexample: with a session active (transfers_setup true) and a
flush transfer allocated, timssdr_start_tx returns TIMSSDR_ERROR_BUSY but
does NOT leave the streaming state of the first session unaffected: it
flips the `flush` flag from false to true and overwrites tx_ctx, because
timssdr_start_tx performs both writes before prepare_setup_transfers
checks transfers_setup (timssdr.c lines 928-931 before line 500). -/
theorem start_tx_busy_mutates_state :
    (timssdr_start_tx devBusyFt 7 1 (fun _ => cbBase) (fun _ => 0) 0 0).2.result =
      TIMSSDR_ERROR_BUSY ∧
    devBusyFt.flush = false ∧
    (timssdr_start_tx devBusyFt 7 1 (fun _ => cbBase) (fun _ => 0) 0 0).1.flush = true ∧
    (timssdr_start_tx devBusyFt 7 1 (fun _ => cbBase) (fun _ => 0) 0 0).1.tx_ctx ≠
      devBusyFt.tx_ctx := by
  refine ⟨rfl, rfl, rfl, by decide⟩

/-- C6 (amended): while a session is active, a further timssdr_start_rx or
timssdr_start_tx returns TIMSSDR_ERROR_BUSY without installing the new
sample-block callback, without submitting any transfer, and without
touching `streaming`, `transfers_setup` or `active_transfers`; however
start_rx does overwrite rx_ctx, and start_tx overwrites tx_ctx and sets
`flush` when a flush transfer is allocated, all before the BUSY check. -/
theorem start_busy_rejected (s : DeviceState) (cbk ctx : Nat) (cbs : Nat → CbOutcome)
    (submitRes : Nat → Int) (fr ei : Int) (hbusy : s.transfers_setup = true) :
    ((timssdr_start_rx s cbk ctx cbs submitRes fr ei).2.result = TIMSSDR_ERROR_BUSY ∧
     (timssdr_start_rx s cbk ctx cbs submitRes fr ei).2.submissions = [] ∧
     (timssdr_start_rx s cbk ctx cbs submitRes fr ei).2.flush_submitted = false ∧
     (timssdr_start_rx s cbk ctx cbs submitRes fr ei).1 = {s with rx_ctx := ctx}) ∧
    ((timssdr_start_tx s cbk ctx cbs submitRes fr ei).2.result = TIMSSDR_ERROR_BUSY ∧
     (timssdr_start_tx s cbk ctx cbs submitRes fr ei).2.submissions = [] ∧
     (timssdr_start_tx s cbk ctx cbs submitRes fr ei).2.flush_submitted = false ∧
     (timssdr_start_tx s cbk ctx cbs submitRes fr ei).1 =
       {s with tx_ctx := ctx, flush := s.flush || s.flush_transfer.isSome}) := by
  constructor
  · simp [timssdr_start_rx, prepare_setup_transfers, hbusy]
  · cases hft : s.flush_transfer with
    | none => simp [timssdr_start_tx, prepare_setup_transfers, hbusy, hft]
    | some f => simp [timssdr_start_tx, prepare_setup_transfers, hbusy, hft]

/-- C6 witness: the amended theorem evaluated on the concrete busy device. -/
theorem start_busy_rejected_witness :
    (timssdr_start_rx devBusyFt 9 5 (fun _ => cbBase) (fun _ => 0) 0 0).2.result =
      TIMSSDR_ERROR_BUSY ∧
    (timssdr_start_tx devBusyFt 9 5 (fun _ => cbBase) (fun _ => 0) 0 0).2.result =
      TIMSSDR_ERROR_BUSY :=
  ⟨(start_busy_rejected devBusyFt 9 5 (fun _ => cbBase) (fun _ => 0) 0 0 rfl).1.1,
   (start_busy_rejected devBusyFt 9 5 (fun _ => cbBase) (fun _ => 0) 0 0 rfl).2.1⟩

/-- Device in the state timssdr_start_tx would leave it with a flush
transfer armed, just before prepare_transfers runs: `flush` is set and the
ring is allocated.  Used for the C4 failing input. -/
def devFlushArmed : DeviceState :=
  {devBase with
    flush := true
    flush_transfer := some ⟨TX_ENDPOINT_ADDRESS, fun _ => 0, DEVICE_BUFFER_SIZE⟩}

/-- C4: when the TX fill callback refuses the very first buffer
(ready_transfers = 0), the submit loop body never runs and the C local
`error` is read uninitialised by `if (error == 0)` (timssdr.c:401/472 —
undefined behaviour).  The model makes the indeterminate initial value an
explicit parameter, and the observable outcome depends on it: with garbage 0
the function sets transfers_setup, submits the armed flush transfer and
returns TIMSSDR_SUCCESS (the behaviour the claim describes); with garbage 1
it leaves transfers_setup false, submits nothing and returns
TIMSSDR_ERROR_LIBUSB. -/
theorem prepare_transfers_uninit_error_dependence :
    ((prepare_transfers devFlushArmed TX_ENDPOINT_ADDRESS (fun _ => cbRefuse)
        (fun _ => 0) 0 0).1.transfers_setup = true ∧
     (prepare_transfers devFlushArmed TX_ENDPOINT_ADDRESS (fun _ => cbRefuse)
        (fun _ => 0) 0 0).2.result = TIMSSDR_SUCCESS ∧
     (prepare_transfers devFlushArmed TX_ENDPOINT_ADDRESS (fun _ => cbRefuse)
        (fun _ => 0) 0 0).2.flush_submitted = true) ∧
    ((prepare_transfers devFlushArmed TX_ENDPOINT_ADDRESS (fun _ => cbRefuse)
        (fun _ => 0) 0 1).1.transfers_setup = false ∧
     (prepare_transfers devFlushArmed TX_ENDPOINT_ADDRESS (fun _ => cbRefuse)
        (fun _ => 0) 0 1).2.result = TIMSSDR_ERROR_LIBUSB ∧
     (prepare_transfers devFlushArmed TX_ENDPOINT_ADDRESS (fun _ => cbRefuse)
        (fun _ => 0) 0 1).2.flush_submitted = false) := by
  exact ⟨⟨rfl, rfl, rfl⟩, ⟨rfl, rfl, rfl⟩⟩

/-- Helper for C2: the j-th transfer submitted by the submit loop starting at
slot `i` is the filled (and for TX, padded) content of slot `i + j`. -/
theorem submitLoop_get (endpoint : Nat) (cbs : Nat → CbOutcome) (submitRes : Nat → Int) :
    ∀ (n i : Nat) (err : Int) (j : Nat)
      (h : j < (submitLoop endpoint cbs submitRes i n err).1.length),
      (submitLoop endpoint cbs submitRes i n err).1.get ⟨j, h⟩ =
        slotFill endpoint cbs (i + j) := by
  intro n
  induction n with
  | zero => intro i err j h; simp [submitLoop] at h
  | succ n ih =>
    intro i err j h
    by_cases hr : submitRes i = 0
    · cases j with
      | zero => simp [submitLoop, hr]
      | succ jj =>
        have hstep : (submitLoop endpoint cbs submitRes i (n + 1) err).1 =
            (slotFill endpoint cbs i) ::
              (submitLoop endpoint cbs submitRes (i + 1) n 0).1 := by
          simp [submitLoop, hr]
        have hlen : jj < (submitLoop endpoint cbs submitRes (i + 1) n 0).1.length := by
          rw [hstep] at h
          simpa using h
        have hg := ih (i + 1) 0 jj hlen
        rw [List.get_of_eq hstep, List.get_cons_succ, hg]
        congr 1
        omega
    · cases j with
      | zero => simp [submitLoop, hr]
      | succ jj =>
        exfalso
        simp [submitLoop, hr] at h

/-- Helper for C2: with the ring allocated, prepare_transfers reports exactly
the submit loop's submissions, whatever the error path taken afterwards. -/
theorem prepare_submissions (s : DeviceState) (endpoint : Nat) (cbs : Nat → CbOutcome)
    (submitRes : Nat → Int) (flushSubmitRes errorInit : Int)
    (halloc : s.transfers_allocated = true) :
    (prepare_transfers s endpoint cbs submitRes flushSubmitRes errorInit).2.submissions =
      (submitLoop endpoint cbs submitRes 0
        (if endpoint = TX_ENDPOINT_ADDRESS then txReadyFrom cbs 0 TRANSFER_COUNT
         else TRANSFER_COUNT) errorInit).1 := by
  simp only [prepare_transfers, halloc, Bool.true_eq_false, if_false]
  split_ifs <;> rfl

/-- C2: every TX transfer handed to the transport — the initial submissions
in prepare_transfers and a resubmission in the completion handler — has
length equal to the callback's valid_length rounded up to the next multiple
of 512, and every byte appended between valid_length and that rounded
length is zero. -/
theorem tx_submission_padded (s : DeviceState) (status : Int) (cb : CbOutcome)
    (submitOk flushSubmitOk : Bool) (cbs : Nat → CbOutcome) (submitRes : Nat → Int)
    (flushSubmitRes errorInit : Int)
    (hst : status = LIBUSB_TRANSFER_COMPLETED) (hstr : s.streaming = true)
    (hret : cb.ret = 0) (hv : cb.valid_length > 0) (hsetup : s.transfers_setup = true) :
    (∃ B, (timssdr_libusb_transfer_callback s TX_ENDPOINT_ADDRESS status cb submitOk
        flushSubmitOk).2.submitted =
        some (512 * ((cb.valid_length.toNat + 511) / 512), B) ∧
      ∀ i, cb.valid_length.toNat ≤ i → i < 512 * ((cb.valid_length.toNat + 511) / 512) →
        B i = 0) ∧
    (∀ j (h : j < (prepare_transfers s TX_ENDPOINT_ADDRESS cbs submitRes flushSubmitRes
          errorInit).2.submissions.length),
      ((prepare_transfers s TX_ENDPOINT_ADDRESS cbs submitRes flushSubmitRes
          errorInit).2.submissions.get ⟨j, h⟩).1 =
        512 * (((cbs j).valid_length.toNat + 511) / 512) ∧
      ∀ i, (cbs j).valid_length.toNat ≤ i →
        i < 512 * (((cbs j).valid_length.toNat + 511) / 512) →
        ((prepare_transfers s TX_ENDPOINT_ADDRESS cbs submitRes flushSubmitRes
            errorInit).2.submissions.get ⟨j, h⟩).2 i = 0) := by
  constructor
  · refine ⟨(padLoop cb.buffer cb.valid_length.toNat).1, ?_, ?_⟩
    · simp [timssdr_libusb_transfer_callback, hst, hstr, hret, hv, hsetup, padLoop_len]
    · intro i h1 h2
      exact padLoop_zeros cb.buffer cb.valid_length.toNat i h1
        (by rw [padLoop_len]; exact h2)
  · intro j h
    by_cases halloc : s.transfers_allocated = true
    · have hsubs := prepare_submissions s TX_ENDPOINT_ADDRESS cbs submitRes flushSubmitRes
        errorInit halloc
      rw [if_pos rfl] at hsubs
      rw [List.get_of_eq hsubs, submitLoop_get, Nat.zero_add]
      constructor
      · simp [slotFill, padLoop_len]
      · intro i h1 h2
        simp only [slotFill, if_pos rfl]
        exact padLoop_zeros (cbs j).buffer ((cbs j).valid_length).toNat i h1
          (by rw [padLoop_len]; exact h2)
    · exfalso
      have halloc2 : s.transfers_allocated = false := by
        revert halloc
        cases s.transfers_allocated <;> simp
      have hnil : (prepare_transfers s TX_ENDPOINT_ADDRESS cbs submitRes flushSubmitRes
          errorInit).2.submissions = [] := by
        simp [prepare_transfers, halloc2]
      rw [hnil] at h
      simp at h

/-- Device ready for a TX resubmission (streaming, setup), for the C2 witness. -/
def devTxLive : DeviceState :=
  {devBase with streaming := true, transfers_setup := true}

/-- C2 witness: a completed TX transfer whose callback produced 100 valid
bytes is resubmitted with exactly 512 bytes. -/
theorem tx_submission_padded_witness :
    ((timssdr_libusb_transfer_callback devTxLive TX_ENDPOINT_ADDRESS 0 cbBase true
        true).2.submitted.map Prod.fst) = some 512 := by
  obtain ⟨⟨B, hB, hz⟩, -⟩ := tx_submission_padded devTxLive 0 cbBase true true
    (fun _ => cbBase) (fun _ => 0) 0 0 rfl rfl rfl (by decide) rfl
  rw [hB]
  rfl
